import Mathlib

/-!
Verification of the message-intent classification and context-filtering
pipeline of the Discord/ClickUp bot (`src/bot.py`).

Modelling conventions:
* Python strings are Lean `String`s; every Python string primitive the code
  uses (`strip`, `lower`, `upper`, `split`, `split(',')`, `split('\n')`,
  `replace`, `startswith`, `in`, `isdigit`, `int(...)`, slicing) is embedded
  as an executable function on the underlying character list, restricted to
  ASCII case/digit semantics (the code only compares against ASCII keywords
  and parses ASCII digit replies).
* Every call to the language model is abstracted as an oracle outcome of type
  `Except Unit String`: `.ok r` is the completion's reply text, `.error ()`
  is any transport/model failure (the prompt strings the code builds only
  feed that oracle and never influence control flow, so they are not
  reproduced).  Whether a model credential is configured
  (`openai.api_key`) is a `Bool` parameter `hasKey`.
* Discord/ClickUp network reads are abstracted the same way: a channel's
  history is an `Except Unit (List DiscordMessage)` (newest first, as the
  platform delivers it) and the folder's list collection is the `List
  RemoteList` that `get_folder_lists` returned (empty on HTTP failure).
-/

/-! ## Python string primitives -/

/-- Python whitespace as used by `str.strip()` / `str.split()` (ASCII part). -/
def pyIsSpace (c : Char) : Bool :=
  c == ' ' || c == '\t' || c == '\n' || c == '\r' || c == '\x0b' || c == '\x0c'

def pyStripList (l : List Char) : List Char :=
  ((l.dropWhile pyIsSpace).reverse.dropWhile pyIsSpace).reverse

/-- Python `str.strip()`. -/
def pyStrip (s : String) : String := ⟨pyStripList s.data⟩

/-- Python `str.lower()` (ASCII). -/
def pyLower (s : String) : String := ⟨s.data.map Char.toLower⟩

/-- Python `str.upper()` (ASCII). -/
def pyUpper (s : String) : String := ⟨s.data.map Char.toUpper⟩

/-- Python slicing `s[:n]`. -/
def strTake (s : String) (n : Nat) : String := ⟨s.data.take n⟩

def listIsPrefixOf : List Char → List Char → Bool
  | [], _ => true
  | _ :: _, [] => false
  | a :: as, b :: bs => a == b && listIsPrefixOf as bs

def listContainsSub (needle : List Char) : List Char → Bool
  | [] => needle.isEmpty
  | c :: rest => listIsPrefixOf needle (c :: rest) || listContainsSub needle rest

/-- Python `sub in s`. -/
def strContains (s sub : String) : Bool := listContainsSub sub.data s.data

/-- Python `s.startswith(p)`. -/
def strStartsWith (s p : String) : Bool := listIsPrefixOf p.data s.data

def splitOnCharAux (sep : Char) : List Char → List Char → List String
  | [], acc => [⟨acc.reverse⟩]
  | c :: rest, acc =>
    if c == sep then ⟨acc.reverse⟩ :: splitOnCharAux sep rest []
    else splitOnCharAux sep rest (c :: acc)

/-- Python `s.split(sep)` for a one-character separator (keeps empty parts). -/
def splitOnChar (sep : Char) (s : String) : List String := splitOnCharAux sep s.data []

def pySplitLines (s : String) : List String := splitOnChar '\n' s

def pySplitComma (s : String) : List String := splitOnChar ',' s

def pySplitWsAux : List Char → List Char → List String
  | [], [] => []
  | [], acc => [⟨acc.reverse⟩]
  | c :: rest, acc =>
    if pyIsSpace c then
      if acc.isEmpty then pySplitWsAux rest [] else ⟨acc.reverse⟩ :: pySplitWsAux rest []
    else pySplitWsAux rest (c :: acc)

/-- Python `s.split()` (split on whitespace runs, dropping empty parts). -/
def pySplitWs (s : String) : List String := pySplitWsAux s.data []

/-- Helper for `listReplace`: `skip` counts characters still belonging to a
match that was already replaced. -/
def listReplaceAux (pat rep : List Char) : Nat → List Char → List Char
  | _, [] => []
  | Nat.succ k, _ :: rest => listReplaceAux pat rep k rest
  | 0, c :: rest =>
    if listIsPrefixOf pat (c :: rest) then rep ++ listReplaceAux pat rep (pat.length - 1) rest
    else c :: listReplaceAux pat rep 0 rest

/-- Python `s.replace(pat, rep)` for a nonempty pattern (the code only ever
replaces nonempty literals; on an empty pattern this returns the input). -/
def listReplace (pat rep l : List Char) : List Char :=
  if pat = [] then l else listReplaceAux pat rep 0 l

def pyReplace (s pat rep : String) : String := ⟨listReplace pat.data rep.data s.data⟩

/-- Python `str.isdigit()` (ASCII digits). -/
def pyIsDigitStr (s : String) : Bool := !s.data.isEmpty && s.data.all Char.isDigit

def digitsVal (l : List Char) : Nat := l.foldl (fun n c => 10 * n + (c.toNat - 48)) 0

def pyDigitRun : List Char → Bool
  | [] => true
  | '_' :: rest =>
    match rest with
    | [] => false
    | c :: rest2 => c.isDigit && pyDigitRun rest2
  | c :: rest => c.isDigit && pyDigitRun rest

def pyIntDigits : List Char → Bool
  | [] => false
  | c :: rest => c.isDigit && pyDigitRun rest

def pyIntOfDigits (l : List Char) : Nat := digitsVal (l.filter (fun c => c != '_'))

/-- Python `int(s)` on a text argument: optional sign, then ASCII digits with
single underscore separators; anything else raises `ValueError`, modelled as
`none`. -/
def pyInt (s : String) : Option Int :=
  match pyStripList s.data with
  | '+' :: rest => if pyIntDigits rest then some (pyIntOfDigits rest : Int) else none
  | '-' :: rest => if pyIntDigits rest then some (-(pyIntOfDigits rest : Int)) else none
  | l => if pyIntDigits l then some (pyIntOfDigits l : Int) else none

/-! ## Data model -/

/-- One channel message as the Context Collector sees it (`message.author.bot`,
`message.author.display_name`, `message.content`). -/
structure DiscordMessage where
  author_is_bot : Bool
  author_display_name : String
  content : String
deriving DecidableEq

/-- One list dict of the folder, as ClickUp returns it; the code reads the
keys with `.get`, so each field is optional. -/
structure RemoteList where
  id : Option String
  name : Option String
deriving DecidableEq

/-- One task dict of a list, read with `.get` by the matching code. -/
structure RemoteTask where
  id : Option String
  name : Option String
  description : Option String
  status : Option String
deriving DecidableEq

/-- One guild member as `match_member_by_name` reads it. -/
structure Member where
  display_name : String
  name : String
  member_id : Nat
deriving DecidableEq

/-! ## Context Collector (`get_channel_context`, bot.py lines 182-196) -/

/-- The per-message format `f"{message.author.display_name}: {message.content}"`. -/
def formatContextMessage (m : DiscordMessage) : String :=
  m.author_display_name ++ ": " ++ m.content

/-- `get_channel_context(channel, limit)`: iterates the channel history
(newest first, up to `limit` messages), keeps non-bot messages formatted as
above, and reverses to oldest-first; on any retrieval failure returns `[]`. -/
def get_channel_context (history : Except Unit (List DiscordMessage)) (limit : Nat) :
    List String :=
  match history with
  | .error _ => []
  | .ok msgs =>
    (((msgs.take limit).filter (fun m => !m.author_is_bot)).map formatContextMessage).reverse

/-! ## Relevance Filter (`filter_relevant_context`, bot.py lines 198-254) -/

/-- `filter_relevant_context(task_content, all_messages)`.  `hasKey` is
whether `openai.api_key` is set, `reply` the model oracle.  The numeric reply
is parsed exactly as the code does: split on commas, strip, keep tokens that
satisfy `str.isdigit()`, convert to 0-based indices, keep the in-range ones,
index into the input, cap at 5.  (With ASCII digits the guarded `int(...)`
conversion cannot raise, so the inner `except` branch is unreachable; the
outer one is the `.error` case.) -/
def filter_relevant_context (hasKey : Bool) (reply : Except Unit String)
    (task_content : String) (all_messages : List String) : List String :=
  if all_messages.isEmpty || !hasKey then all_messages.take 5
  else
    match reply with
    | .error _ => all_messages.take 3
    | .ok r =>
      let result := pyLower (pyStrip r)
      if result = "none" then []
      else
        let relevant_indices : List Int :=
          ((pySplitComma result).map pyStrip).filterMap
            (fun x => if pyIsDigitStr x then some ((digitsVal x.data : Int) - 1) else none)
        let relevant_messages :=
          relevant_indices.filterMap
            (fun i => if 0 ≤ i ∧ i < (all_messages.length : Int) then all_messages[i.toNat]? else none)
        relevant_messages.take 5

/-! ## Intent Classifier (`is_task_creation_command`, bot.py lines 376-455) -/

def task_keywords : List String :=
  ["implement", "fix", "create", "update", "review", "add", "remove", "delete",
   "bug", "feature", "system", "api", "database", "interface"]

def simple_command_words_basic : List String := ["task", "taska", "zadanie", "backlog"]

def simple_command_words_extended : List String :=
  ["task", "taska", "zadanie", "backlog", "dodaj", "stwórz", "create", "add"]

/-- The fast-path test: more than 10 words and a technical keyword occurs. -/
def intent_fast_path (content_cleaned : String) : Bool :=
  decide (10 < (pySplitWs content_cleaned).length) &&
    task_keywords.any (fun w => strContains (pyLower content_cleaned) w)

/-- The heuristic used when no credential is configured. -/
def intent_nokey_heuristic (content_cleaned : String) : Bool :=
  decide ((pySplitWs content_cleaned).length ≤ 3) &&
    simple_command_words_basic.any (fun w => strContains (pyLower content_cleaned) w)

/-- The heuristic used in the `except` branch of the model call. -/
def intent_error_heuristic (content_cleaned : String) : Bool :=
  decide ((pySplitWs content_cleaned).length ≤ 5) &&
    simple_command_words_extended.any (fun w => strContains (pyLower content_cleaned) w)

/-- `is_task_creation_command(content)`: returns the decision (`true` =
COMMAND) together with how many model calls were attempted. -/
def is_task_creation_command (hasKey : Bool) (reply : Except Unit String)
    (content : String) : Bool × Nat :=
  let content_cleaned := pyStrip content
  if content_cleaned = "" then (false, 0)
  else if intent_fast_path content_cleaned then (false, 0)
  else if !hasKey then (intent_nokey_heuristic content_cleaned, 0)
  else
    match reply with
    | .error _ => (intent_error_heuristic content_cleaned, 1)
    | .ok r => (pyUpper (pyStrip r) == "COMMAND", 1)

/-! ## Context-to-Task Extractor (`extract_task_from_context`, bot.py 457-526) -/

/-- The response-parsing loop of `extract_task_from_context`: scan the reply's
lines; a line starting with `TITLE:` (resp. `DESCRIPTION:`) overwrites the
title (resp. description), which start as the placeholder title and the
command text. -/
def parse_title_description (command_content : String) (lines : List String) :
    String × String :=
  lines.foldl
    (fun td line =>
      if strStartsWith line "TITLE:" then (pyStrip (pyReplace line "TITLE:" ""), td.2)
      else if strStartsWith line "DESCRIPTION:" then (td.1, pyStrip (pyReplace line "DESCRIPTION:" ""))
      else td)
    ("Task from conversation context", command_content)

/-- `extract_task_from_context(message, command_content)` (the channel
context it fetches feeds only the prompt). -/
def extract_task_from_context (hasKey : Bool) (reply : Except Unit String)
    (all_channel_messages : List String) (command_content : String) : String × String :=
  if !hasKey then ("Task from conversation context", "No AI analysis available")
  else
    match reply with
    | .error _ => ("Task from conversation context", command_content)
    | .ok ai_response => parse_title_description command_content (pySplitLines ai_response)

/-! ## Title Generator (`generate_smart_title`, bot.py lines 256-307) -/

/-- The fallback `f"{task_content[:50]}{'...' if len(task_content) > 50 else ''}"`. -/
def fallback_title (task_content : String) : String :=
  strTake task_content 50 ++ (if 50 < task_content.length then "..." else "")

/-- `generate_smart_title(task_content, relevant_context)`: the stripped reply
unless it is empty or longer than 80 characters or the call failed, in which
case the fallback title. -/
def generate_smart_title (reply : Except Unit String) (task_content : String)
    (relevant_context : List String) : String :=
  match reply with
  | .error _ => fallback_title task_content
  | .ok r =>
    let generated_title := pyStrip r
    if generated_title == "" || decide (80 < generated_title.length) then
      fallback_title task_content
    else generated_title

/-! ## List Router (`determine_target_list`, bot.py lines 309-330, and
`ClickUpClient.get_newest_list_from_folder`, lines 56-74) -/

/-- `get_newest_list_from_folder`: `None` when the folder has no lists,
otherwise `lists[-1]`. -/
def get_newest_list_from_folder (lists : List RemoteList) : Option RemoteList :=
  lists.getLast?

/-- `determine_target_list(message_content)`: the pair
`(list_id, list_description)`; `none` as first component means "use the
default backlog list". `folder_lists` is what `get_folder_lists` returned. -/
def determine_target_list (folder_lists : List RemoteList) (message_content : String) :
    Option String × String :=
  if strContains (pyLower message_content) "backlog" then
    (none, "📋 Backlog")
  else
    match get_newest_list_from_folder folder_lists with
    | some newest_list => (newest_list.id, "🚀 " ++ newest_list.name.getD "Current Sprint")
    | none => (none, "📋 Backlog (fallback)")

/-! ## Status Normalizer (`normalize_status`, bot.py lines 691-716) -/

def status_mapping : List (String × String) :=
  [("todo", "to do"), ("to do", "to do"), ("backlog", "to do"),
   ("start", "in progress"), ("started", "in progress"), ("progress", "in progress"),
   ("in progress", "in progress"), ("working", "in progress"),
   ("review", "in review"), ("in review", "in review"), ("reviewing", "in review"),
   ("done", "complete"), ("complete", "complete"), ("completed", "complete"),
   ("finished", "complete"), ("close", "complete"), ("closed", "complete"),
   ("resolved", "complete"), ("fixed", "complete")]

/-- `normalize_status(status_input)`: exact lookup of the lowercased, stripped
input in the fixed table. -/
def normalize_status (status_input : String) : Option String :=
  List.lookup (pyStrip (pyLower status_input)) status_mapping

/-! ## Semantic Matcher (`find_similar_task`, bot.py lines 718-787) -/

/-- `find_similar_task(task_description, tasks)`; the numbered task list the
code builds feeds only the prompt. -/
def find_similar_task (hasKey : Bool) (reply : Except Unit String)
    (task_description : String) (tasks : List RemoteTask) : Option RemoteTask :=
  if tasks.isEmpty || !hasKey then none
  else
    match reply with
    | .error _ => none
    | .ok r =>
      let result := pyLower (pyStrip r)
      if result = "none" then none
      else
        match pyInt result with
        | none => none
        | some k =>
          let task_index := k - 1
          if 0 ≤ task_index ∧ task_index < (tasks.length : Int) then tasks[task_index.toNat]?
          else none

/-! ## Member Matcher (`match_member_by_name`, bot.py lines 789-828) -/

def match_member_by_name (hasKey : Bool) (reply : Except Unit String)
    (name_query : String) (members : List Member) : Option Member :=
  if members.isEmpty then none
  else if !hasKey then
    members.find? (fun m =>
      strContains (pyLower m.display_name) (pyLower name_query) ||
      strContains (pyLower m.name) (pyLower name_query))
  else
    match reply with
    | .error _ => none
    | .ok r =>
      let result := pyLower (pyStrip r)
      if result = "none" then none
      else
        match pyInt result with
        | none => none
        | some k =>
          let index := k - 1
          if 0 ≤ index ∧ index < (members.length : Int) then members[index.toNat]?
          else none

/-! ## Task Assembler payload (`ClickUpClient.create_task`, bot.py lines 76-109) -/

/-- The JSON payload `create_task` posts; `assignees = none` means the key is
absent from the payload. -/
structure TaskPayload where
  name : String
  description : String
  priority : Nat
  due_date : Option Nat
  due_date_time : Bool
  time_estimate : Option Nat
  start_date : Option Nat
  start_date_time : Bool
  notify_all : Bool
  parent : Option String
  links_to : Option String
  check_required_custom_fields : Bool
  custom_fields : List String
  assignees : Option (List Nat)
deriving DecidableEq

/-- The payload `create_task(name, description, list_id, assignees)` builds:
fixed fields, and the `assignees` key only when the argument is truthy
(present and nonempty). -/
def create_task_payload (name description : String) (assignees : Option (List Nat)) :
    TaskPayload :=
  { name := name, description := description, priority := 3,
    due_date := none, due_date_time := false, time_estimate := none,
    start_date := none, start_date_time := false, notify_all := true,
    parent := none, links_to := none, check_required_custom_fields := true,
    custom_fields := [],
    assignees :=
      match assignees with
      | some l => if l.isEmpty then none else some l
      | none => none }

/-- `target_list_id = list_id or self.list_id` (Python `or`: an empty string
is falsy). -/
def create_task_target (default_list_id : String) (list_id : Option String) : String :=
  match list_id with
  | some s => if s = "" then default_list_id else s
  | none => default_list_id

/-! ## The title part of the pipeline (`handle_task_creation`, bot.py 528-612) -/

/-- The oracle outcomes one pipeline run consumes. -/
structure PipelineEnv where
  hasKey : Bool
  history : Except Unit (List DiscordMessage)
  intentReply : Except Unit String
  extractReply : Except Unit String
  filterReply : Except Unit String
  titleReply : Except Unit String

/-- The `final_task_name` that `handle_task_creation` passes to
`clickup_client.create_task`, for a non-empty cleaned message: the extractor's
title on the command path, the generated title on the direct-description
path. -/
def handle_task_creation_final_name (env : PipelineEnv) (clean_content : String) : String :=
  let is_command := (is_task_creation_command env.hasKey env.intentReply clean_content).1
  if is_command then
    (extract_task_from_context env.hasKey env.extractReply
      (get_channel_context env.history 15) clean_content).1
  else
    let all_channel_messages := get_channel_context env.history 20
    let relevant_context :=
      filter_relevant_context env.hasKey env.filterReply clean_content all_channel_messages
    generate_smart_title env.titleReply clean_content relevant_context

/-- The Context Collector as the spec words it: "the most recent N non-bot
messages of the channel, oldest-first" (spec-side reference definition, to be
compared with `get_channel_context`). -/
def spec_context_collector (msgs : List DiscordMessage) (limit : Nat) : List String :=
  (((msgs.filter (fun m => !m.author_is_bot)).take limit).map formatContextMessage).reverse

/-! ## Helper lemmas -/

theorem string_eq_empty_iff (s : String) : s = "" ↔ s.data = [] := by
  constructor
  · intro h
    rw [h]
  · intro h
    cases s with
    | mk l =>
      have h2 : l = [] := h
      subst h2
      rfl

theorem listIsPrefixOf_refl : ∀ l : List Char, listIsPrefixOf l l = true := by
  intro l
  induction l with
  | nil => rfl
  | cons a t ih => simp [listIsPrefixOf, ih]

theorem listContainsSub_append_self (pre sub : List Char) :
    listContainsSub sub (pre ++ sub) = true := by
  induction pre with
  | nil =>
    cases sub with
    | nil => rfl
    | cons c t => simp [listContainsSub, listIsPrefixOf_refl]
  | cons c pre ih => simp [listContainsSub, ih]

/-- A string contains its own suffix (used for the sprint label). -/
theorem strContains_append_self (s t : String) : strContains (s ++ t) t = true := by
  unfold strContains
  rw [String.data_append]
  exact listContainsSub_append_self s.data t.data

theorem fallback_title_ne_empty : ∀ c : String, c ≠ "" → fallback_title c ≠ "" := by
  intro c hc he
  unfold fallback_title at he
  have hd := congrArg String.data he
  rw [String.data_append] at hd
  have h1 : c.data.take 50 = [] := (List.append_eq_nil.mp hd).1
  rcases List.take_eq_nil_iff.mp h1 with h | h
  · exact absurd h (by decide)
  · exact hc ((string_eq_empty_iff c).mpr h)

theorem generate_smart_title_ne_empty :
    ∀ (o : Except Unit String) (c : String) (ctx : List String), c ≠ "" →
      generate_smart_title o c ctx ≠ "" := by
  intro o c ctx hc
  cases o with
  | error e =>
    simp only [generate_smart_title]
    exact fallback_title_ne_empty c hc
  | ok r =>
    simp only [generate_smart_title]
    split
    · exact fallback_title_ne_empty c hc
    · next h =>
      simp only [Bool.or_eq_true, beq_iff_eq, decide_eq_true_eq, not_or] at h
      exact h.1

/-! ## Claim theorems -/

/-- Claim C6 (confirmed): `normalize_status` lowercases and trims its input
and performs an exact lookup in the fixed table: `"Closed "` maps to
`"complete"`, each of `done`, `complete`, `closed`, `resolved`, `fixed` maps
to `"complete"`, and any input whose lowercased/trimmed form is not a key of
the table (such as `"in-progress"`) yields `none`. -/
theorem C6_normalize_status_table :
    normalize_status "Closed " = some "complete" ∧
    normalize_status "done" = some "complete" ∧
    normalize_status "complete" = some "complete" ∧
    normalize_status "closed" = some "complete" ∧
    normalize_status "resolved" = some "complete" ∧
    normalize_status "fixed" = some "complete" ∧
    normalize_status "in-progress" = none ∧
    (∀ s : String, pyStrip (pyLower s) ∉ status_mapping.map Prod.fst →
      normalize_status s = none) := by
  refine ⟨by decide, by decide, by decide, by decide, by decide, by decide, by decide, ?_⟩
  intro s hs
  unfold normalize_status
  rw [List.lookup_eq_none_iff]
  intro p hp
  simp only [bne_iff_ne]
  intro he
  exact hs (he ▸ List.mem_map_of_mem Prod.fst hp)

/-- Closed instance of C6's universal clause: a word absent from the table
normalizes to `none`. -/
theorem C6_normalize_status_witness : normalize_status "wip" = none :=
  C6_normalize_status_table.2.2.2.2.2.2.2 "wip" (by decide)

/-- Claim C10 (confirmed): every payload built by `ClickUpClient.create_task`
carries priority 3, `notify_all = true`, and no due date, start date or time
estimate, whatever the name and description; and the `assignees` key is
present only when the caller passed assignees. -/
theorem C10_create_task_payload_fixed_fields :
    ∀ (name description : String) (assignees : Option (List Nat)),
      (create_task_payload name description assignees).priority = 3 ∧
      (create_task_payload name description assignees).notify_all = true ∧
      (create_task_payload name description assignees).due_date = none ∧
      (create_task_payload name description assignees).start_date = none ∧
      (create_task_payload name description assignees).time_estimate = none ∧
      ((create_task_payload name description assignees).assignees ≠ none →
        assignees ≠ none) := by
  intro name description assignees
  refine ⟨rfl, rfl, rfl, rfl, rfl, ?_⟩
  intro h he
  subst he
  exact h rfl

/-- Closed instance of C10 at a concrete payload. -/
theorem C10_create_task_payload_witness :
    (some [7] : Option (List Nat)) ≠ none ∧
    (create_task_payload "t" "d" (some [7])).priority = 3 :=
  ⟨(C10_create_task_payload_fixed_fields "t" "d" (some [7])).2.2.2.2.2 (by decide),
   (C10_create_task_payload_fixed_fields "t" "d" (some [7])).1⟩

/-- Claim C2 (confirmed): a cleaned message with more than 10
whitespace-separated words containing a keyword of the fixed technical/action
vocabulary is classified as TASK_DESCRIPTION (`false`) with zero model calls,
and an input that strips to empty is classified `false` with zero model
calls, for every credential state and oracle outcome. -/
theorem C2_intent_fast_paths :
    ∀ (content : String) (hasKey : Bool) (o : Except Unit String),
      (10 < (pySplitWs (pyStrip content)).length →
        task_keywords.any (fun w => strContains (pyLower (pyStrip content)) w) = true →
        is_task_creation_command hasKey o content = (false, 0)) ∧
      (pyStrip content = "" → is_task_creation_command hasKey o content = (false, 0)) := by
  intro content hasKey o
  constructor
  · intro h1 h2
    have hne : ¬ pyStrip content = "" := by
      intro he
      rw [he] at h1
      exact absurd h1 (by decide)
    have hfast : intent_fast_path (pyStrip content) = true := by
      simp [intent_fast_path, h2, decide_eq_true h1]
    simp only [is_task_creation_command]
    rw [if_neg hne, if_pos hfast]
  · intro he
    simp only [is_task_creation_command]
    rw [if_pos he]

/-- Closed instances of C2: an 11-word technical message and a
whitespace-only message, both classified `false` with zero model calls. -/
theorem C2_intent_fast_paths_witness :
    is_task_creation_command true (.ok "COMMAND")
      "we need to fix the login page because it breaks badly" = (false, 0) ∧
    is_task_creation_command true (.ok "COMMAND") "   " = (false, 0) :=
  ⟨(C2_intent_fast_paths "we need to fix the login page because it breaks badly"
      true (.ok "COMMAND")).1 (by decide) (by decide),
   (C2_intent_fast_paths "   " true (.ok "COMMAND")).2 (by decide)⟩

/-- Claim C4 (confirmed): whenever the model path is unavailable (the call
fails) or the stripped reply is empty or longer than 80 characters,
`generate_smart_title` returns the deterministic fallback, which is
`content[:50] ++ "..."` when the content is longer than 50 characters and
the content unchanged otherwise. -/
theorem C4_generate_smart_title_fallback :
    ∀ (task_content : String) (ctx : List String),
      generate_smart_title (.error ()) task_content ctx = fallback_title task_content ∧
      (∀ r : String, pyStrip r = "" ∨ 80 < (pyStrip r).length →
        generate_smart_title (.ok r) task_content ctx = fallback_title task_content) ∧
      (50 < task_content.length →
        fallback_title task_content = strTake task_content 50 ++ "...") ∧
      (task_content.length ≤ 50 → fallback_title task_content = task_content) := by
  intro c ctx
  refine ⟨rfl, ?_, ?_, ?_⟩
  · intro r hr
    have hcond : (pyStrip r == "" || decide (80 < (pyStrip r).length)) = true := by
      rcases hr with h | h
      · simp [h]
      · simp [h]
    simp only [generate_smart_title]
    rw [if_pos hcond]
  · intro h
    unfold fallback_title
    rw [if_pos h]
  · intro h
    unfold fallback_title
    rw [if_neg (by omega)]
    rw [String.append_empty]
    show (⟨c.data.take 50⟩ : String) = c
    rw [List.take_of_length_le h]

/-- Closed instances of C4: a blank reply falls back, and a short content is
returned unchanged by the fallback. -/
theorem C4_generate_smart_title_witness :
    generate_smart_title (.ok "   ") "short content" [] = fallback_title "short content" ∧
    fallback_title "short content" = "short content" :=
  ⟨(C4_generate_smart_title_fallback "short content" []).2.1 "   " (Or.inl (by decide)),
   (C4_generate_smart_title_fallback "short content" []).2.2.2 (by decide)⟩

/-- Claim C3 (confirmed): if the message contains `"backlog"`
case-insensitively, `determine_target_list` returns the backlog sentinel
(`none`) with a label containing `"Backlog"`; otherwise, with a non-empty
folder list collection it returns the id of the collection's last element
with a label containing that list's name; with an empty collection it
returns the sentinel with the `"fallback"` label.  A sprint-list id (a `some`
first component) arises only from the last-element lookup, never together
with the backlog routing, so the result is never both. -/
theorem C3_determine_target_list_routing :
    ∀ (folder_lists : List RemoteList) (msg : String),
      (strContains (pyLower msg) "backlog" = true →
        (determine_target_list folder_lists msg).1 = none ∧
        strContains (determine_target_list folder_lists msg).2 "Backlog" = true) ∧
      (strContains (pyLower msg) "backlog" = false →
        ∀ l : RemoteList, folder_lists.getLast? = some l →
          (determine_target_list folder_lists msg).1 = l.id ∧
          ∀ nm : String, l.name = some nm →
            strContains (determine_target_list folder_lists msg).2 nm = true) ∧
      (strContains (pyLower msg) "backlog" = false → folder_lists = [] →
        determine_target_list folder_lists msg = (none, "📋 Backlog (fallback)")) ∧
      ((determine_target_list folder_lists msg).1 ≠ none →
        strContains (pyLower msg) "backlog" = false ∧
        ∃ l : RemoteList, folder_lists.getLast? = some l ∧
          (determine_target_list folder_lists msg).1 = l.id) := by
  intro L msg
  refine ⟨?_, ?_, ?_, ?_⟩
  · intro hb
    unfold determine_target_list
    rw [if_pos hb]
    exact ⟨rfl, by decide⟩
  · intro hb l hl
    unfold determine_target_list get_newest_list_from_folder
    rw [if_neg (by simp [hb]), hl]
    refine ⟨rfl, ?_⟩
    intro nm hnm
    show strContains ("🚀 " ++ l.name.getD "Current Sprint") nm = true
    rw [hnm, Option.getD_some]
    exact strContains_append_self "🚀 " nm
  · intro hb hnil
    subst hnil
    unfold determine_target_list get_newest_list_from_folder
    rw [if_neg (by simp [hb])]
    rfl
  · intro hne
    by_cases hb : strContains (pyLower msg) "backlog" = true
    · exfalso
      apply hne
      unfold determine_target_list
      rw [if_pos hb]
    · refine ⟨by simpa using hb, ?_⟩
      rcases hl : L.getLast? with _ | l
      · exfalso
        apply hne
        unfold determine_target_list get_newest_list_from_folder
        rw [if_neg hb, hl]
      · refine ⟨l, rfl, ?_⟩
        unfold determine_target_list get_newest_list_from_folder
        rw [if_neg hb, hl]

/-- Closed instances of C3: the spec's two routing examples and the empty
fallback. -/
theorem C3_determine_target_list_witness :
    ((determine_target_list [] "please add to backlog").1 = none ∧
      strContains (determine_target_list [] "please add to backlog").2 "Backlog" = true) ∧
    ((determine_target_list
        [⟨some "idA", some "A"⟩, ⟨some "idB", some "B"⟩, ⟨some "idC", some "C"⟩]
        "fix the login page").1 = some "idC" ∧
      strContains (determine_target_list
        [⟨some "idA", some "A"⟩, ⟨some "idB", some "B"⟩, ⟨some "idC", some "C"⟩]
        "fix the login page").2 "C" = true) ∧
    determine_target_list [] "fix the login page" = (none, "📋 Backlog (fallback)") := by
  refine ⟨(C3_determine_target_list_routing [] "please add to backlog").1 (by decide),
    ?_,
    (C3_determine_target_list_routing [] "fix the login page").2.2.1 (by decide) rfl⟩
  have h := (C3_determine_target_list_routing
    [⟨some "idA", some "A"⟩, ⟨some "idB", some "B"⟩, ⟨some "idC", some "C"⟩]
    "fix the login page").2.1 (by decide) ⟨some "idC", some "C"⟩ rfl
  exact ⟨h.1, h.2 "C" rfl⟩

/-- Claim C5 (confirmed): `find_similar_task` returns `none` on an empty task
list or missing credential; on a model failure it returns `none`; a reply
whose stripped, lowercased form is the token `none`, is non-numeric, or is
out of the 1-based range yields `none`; and a numeric reply `k` with
`1 ≤ k ≤ length` yields the task at 1-based position `k`. -/
theorem C5_find_similar_task_parse :
    ∀ (hasKey : Bool) (o : Except Unit String) (d : String) (tasks : List RemoteTask),
      (tasks = [] → find_similar_task hasKey o d tasks = none) ∧
      (hasKey = false → find_similar_task hasKey o d tasks = none) ∧
      find_similar_task hasKey (.error ()) d tasks = none ∧
      (∀ r : String, pyLower (pyStrip r) = "none" →
        find_similar_task true (.ok r) d tasks = none) ∧
      (∀ r : String, pyInt (pyLower (pyStrip r)) = none →
        find_similar_task true (.ok r) d tasks = none) ∧
      (∀ (r : String) (k : Int), pyInt (pyLower (pyStrip r)) = some k →
        ¬(1 ≤ k ∧ k ≤ (tasks.length : Int)) →
        find_similar_task true (.ok r) d tasks = none) ∧
      (∀ (r : String) (k : Int), pyInt (pyLower (pyStrip r)) = some k →
        1 ≤ k → k ≤ (tasks.length : Int) →
        find_similar_task true (.ok r) d tasks = tasks[(k - 1).toNat]?) := by
  intro hasKey o d tasks
  refine ⟨?_, ?_, ?_, ?_, ?_, ?_, ?_⟩
  · intro h
    subst h
    simp [find_similar_task]
  · intro h
    subst h
    simp [find_similar_task]
  · simp [find_similar_task]
  · intro r hr
    simp only [find_similar_task]
    by_cases h1 : (tasks.isEmpty || !true) = true
    · rw [if_pos h1]
    · rw [if_neg h1, if_pos hr]
  · intro r hr
    simp only [find_similar_task]
    by_cases h1 : (tasks.isEmpty || !true) = true
    · rw [if_pos h1]
    · rw [if_neg h1]
      by_cases h2 : pyLower (pyStrip r) = "none"
      · rw [if_pos h2]
      · rw [if_neg h2, hr]
  · intro r k hk hrange
    have hnone : ¬ pyLower (pyStrip r) = "none" := by
      intro he
      rw [he] at hk
      have h0 : pyInt "none" = (none : Option Int) := by decide
      rw [h0] at hk
      cases hk
    have hni : ¬(0 ≤ k - 1 ∧ k - 1 < (tasks.length : Int)) := by
      intro hc
      exact hrange ⟨by omega, by omega⟩
    simp only [find_similar_task]
    by_cases h1 : (tasks.isEmpty || !true) = true
    · rw [if_pos h1]
    · rw [if_neg h1, if_neg hnone, hk]
      show (if 0 ≤ k - 1 ∧ k - 1 < (tasks.length : Int) then tasks[(k - 1).toNat]? else none)
        = none
      rw [if_neg hni]
  · intro r k hk h1 h2
    have hne : ¬ tasks.isEmpty = true := by
      cases tasks with
      | nil =>
        simp at h2
        omega
      | cons a t => simp
    have hnone : ¬ pyLower (pyStrip r) = "none" := by
      intro he
      rw [he] at hk
      have h0 : pyInt "none" = (none : Option Int) := by decide
      rw [h0] at hk
      cases hk
    simp only [find_similar_task]
    rw [if_neg (by simpa using hne), if_neg hnone, hk]
    show (if 0 ≤ k - 1 ∧ k - 1 < (tasks.length : Int) then tasks[(k - 1).toNat]? else none)
      = tasks[(k - 1).toNat]?
    rw [if_pos ⟨by omega, by omega⟩]

/-- Closed instances of C5: the spec's `"none"`, `"2"`-of-3 and
out-of-range `"9"` examples. -/
theorem C5_find_similar_task_witness :
    find_similar_task true (.ok "none") "d"
      [⟨some "1", some "a", none, none⟩, ⟨some "2", some "b", none, none⟩,
        ⟨some "3", some "c", none, none⟩] = none ∧
    find_similar_task true (.ok "2") "d"
      [⟨some "1", some "a", none, none⟩, ⟨some "2", some "b", none, none⟩,
        ⟨some "3", some "c", none, none⟩] =
      [(⟨some "1", some "a", none, none⟩ : RemoteTask), ⟨some "2", some "b", none, none⟩,
        ⟨some "3", some "c", none, none⟩][(((2 : Int)) - 1).toNat]? ∧
    find_similar_task true (.ok "9") "d"
      [⟨some "1", some "a", none, none⟩, ⟨some "2", some "b", none, none⟩,
        ⟨some "3", some "c", none, none⟩] = none :=
  ⟨(C5_find_similar_task_parse true (.ok "none") "d" _).2.2.2.1 "none" (by decide),
   (C5_find_similar_task_parse true (.ok "2") "d" _).2.2.2.2.2.2 "2" 2 (by decide)
     (by decide) (by decide),
   (C5_find_similar_task_parse true (.ok "9") "d" _).2.2.2.2.2.1 "9" 9 (by decide)
     (by decide)⟩

/-- Claim C9 (confirmed): every degradable stage — context fetching,
relevance filtering, intent classification, context-to-task extraction,
title generation, semantic matching, member matching — absorbs a provider
error and returns its defined fallback value, for every input. -/
theorem C9_degradable_stage_fallbacks :
    ∀ (n : Nat) (t d q c : String) (msgs ctx : List String)
      (tasks : List RemoteTask) (members : List Member),
      get_channel_context (.error ()) n = [] ∧
      filter_relevant_context true (.error ()) t msgs = msgs.take 3 ∧
      (pyStrip c ≠ "" → intent_fast_path (pyStrip c) = false →
        is_task_creation_command true (.error ()) c = (intent_error_heuristic (pyStrip c), 1)) ∧
      extract_task_from_context true (.error ()) msgs c = ("Task from conversation context", c) ∧
      generate_smart_title (.error ()) c ctx = fallback_title c ∧
      find_similar_task true (.error ()) d tasks = none ∧
      match_member_by_name true (.error ()) q members = none := by
  intro n t d q c msgs ctx tasks members
  refine ⟨rfl, ?_, ?_, rfl, rfl, ?_, ?_⟩
  · simp only [filter_relevant_context]
    by_cases h : msgs.isEmpty = true
    · rw [if_pos (by simp [h])]
      have h2 : msgs = [] := by simpa using h
      subst h2
      rfl
    · rw [if_neg (by simp [h])]
  · intro h1 h2
    simp only [is_task_creation_command]
    rw [if_neg h1, if_neg (by simp [h2])]
    rfl
  · simp [find_similar_task]
  · simp only [match_member_by_name]
    by_cases h : members.isEmpty = true
    · rw [if_pos h]
    · rw [if_neg h]
      rfl

/-- Closed instances of C9: the context collector and the intent classifier
fall back on a provider error. -/
theorem C9_degradable_stage_fallbacks_witness :
    get_channel_context (.error ()) 20 = [] ∧
    is_task_creation_command true (.error ()) "dodaj" =
      (intent_error_heuristic (pyStrip "dodaj"), 1) :=
  ⟨(C9_degradable_stage_fallbacks 20 "" "" "" "dodaj" [] [] [] []).1,
   (C9_degradable_stage_fallbacks 20 "" "" "" "dodaj" [] [] [] []).2.2.1
     (by decide) (by decide)⟩

/-- Claim C7 counterexample: with a newest message authored by the bot and
limit 1, `get_channel_context` returns `[]`, while "the most recent 1 non-bot
messages of the channel, oldest-first" is the non-bot message — the code
filters bot messages out of the `limit` newest messages rather than
collecting `limit` non-bot ones. -/
theorem C7_get_channel_context_counterexample :
    get_channel_context
        (.ok [⟨true, "helper", "ping"⟩, ⟨false, "alice", "deploy failed"⟩]) 1 = [] ∧
    spec_context_collector
        [⟨true, "helper", "ping"⟩, ⟨false, "alice", "deploy failed"⟩] 1 =
      ["alice: deploy failed"] ∧
    get_channel_context
        (.ok [⟨true, "helper", "ping"⟩, ⟨false, "alice", "deploy failed"⟩]) 1 ≠
      spec_context_collector
        [⟨true, "helper", "ping"⟩, ⟨false, "alice", "deploy failed"⟩] 1 := by
  refine ⟨by decide, by decide, by decide⟩

/-- Claim C7 as amended (corrected): `get_channel_context` returns, oldest
first, the non-bot messages among the channel's `limit` most recent messages
(hence at most `limit` of them, but possibly fewer non-bot messages than the
channel holds), and on any retrieval failure it returns the empty
sequence. -/
theorem C7_get_channel_context_amended :
    ∀ (msgs : List DiscordMessage) (limit : Nat),
      get_channel_context (.error ()) limit = [] ∧
      get_channel_context (.ok msgs) limit =
        ((msgs.take limit).reverse.filter (fun m => !m.author_is_bot)).map
          formatContextMessage ∧
      (get_channel_context (.ok msgs) limit).length ≤ limit := by
  intro msgs limit
  refine ⟨rfl, ?_, ?_⟩
  · simp only [get_channel_context, List.filter_reverse, List.map_reverse]
  · simp only [get_channel_context, List.length_reverse, List.length_map]
    exact le_trans (List.length_filter_le _ _) (List.length_take_le _ _)

/-- Claim C1 counterexample: the model reply `"2,1"` makes the Relevance
Filter return the two messages in swapped order, which is not an
order-preserving subsequence of the input. -/
theorem C1_filter_relevant_context_counterexample :
    filter_relevant_context true (.ok "2,1") "t" ["a", "b"] = ["b", "a"] ∧
    ¬ List.Sublist ["b", "a"] ["a", "b"] := by
  constructor
  · decide
  · intro h
    exact absurd (h.eq_of_length rfl) (by decide)

/-- Claim C1 as amended (corrected): the Relevance Filter's output always has
length at most 5 and consists of elements of the input (though the model's
reply can reorder or repeat them, so it need not be an order-preserving
subsequence), and with no credential configured it is exactly the first 5
input elements. -/
theorem C1_filter_relevant_context_amended :
    ∀ (hasKey : Bool) (o : Except Unit String) (t : String) (msgs : List String),
      (filter_relevant_context hasKey o t msgs).length ≤ 5 ∧
      (∀ m ∈ filter_relevant_context hasKey o t msgs, m ∈ msgs) ∧
      (hasKey = false → filter_relevant_context hasKey o t msgs = msgs.take 5) := by
  intro hasKey o t msgs
  by_cases hc : (msgs.isEmpty || !hasKey) = true
  · have he : filter_relevant_context hasKey o t msgs = msgs.take 5 := by
      simp only [filter_relevant_context]
      rw [if_pos hc]
    refine ⟨?_, ?_, fun _ => he⟩
    · rw [he]
      exact List.length_take_le 5 msgs
    · rw [he]
      intro m hm
      exact List.mem_of_mem_take hm
  · have hkey : hasKey = true := by
      cases hasKey
      · exact absurd (by simp) hc
      · rfl
    subst hkey
    cases o with
    | error e =>
      have he : filter_relevant_context true (.error e) t msgs = msgs.take 3 := by
        simp only [filter_relevant_context]
        rw [if_neg hc]
      refine ⟨?_, ?_, fun hfalse => nomatch hfalse⟩
      · rw [he]
        exact le_trans (List.length_take_le 3 msgs) (by omega)
      · rw [he]
        intro m hm
        exact List.mem_of_mem_take hm
    | ok r =>
      by_cases hn : pyLower (pyStrip r) = "none"
      · have he : filter_relevant_context true (.ok r) t msgs = [] := by
          simp only [filter_relevant_context]
          rw [if_neg hc, if_pos hn]
        refine ⟨?_, ?_, fun hfalse => nomatch hfalse⟩
        · rw [he]
          simp
        · rw [he]
          intro m hm
          cases hm
      · refine ⟨?_, ?_, fun hfalse => nomatch hfalse⟩
        · simp only [filter_relevant_context]
          rw [if_neg hc, if_neg hn]
          exact List.length_take_le 5 _
        · intro m hm
          simp only [filter_relevant_context] at hm
          rw [if_neg hc, if_neg hn] at hm
          have hm2 := List.mem_of_mem_take hm
          rcases List.mem_filterMap.mp hm2 with ⟨i, hi, hf⟩
          by_cases hr : 0 ≤ i ∧ i < (msgs.length : Int)
          · rw [if_pos hr] at hf
            exact List.getElem?_mem hf
          · rw [if_neg hr] at hf
            cases hf

/-- Closed instance of C1's no-credential clause. -/
theorem C1_filter_relevant_context_witness :
    filter_relevant_context false (.ok "junk") "t" ["a", "b", "c", "d", "e", "f"]
      = List.take 5 ["a", "b", "c", "d", "e", "f"] :=
  (C1_filter_relevant_context_amended false (.ok "junk") "t"
    ["a", "b", "c", "d", "e", "f"]).2.2 rfl

/-- Claim C8 counterexample: a non-empty cleaned message classified as a
command, with an extractor reply whose `TITLE:` line has empty content,
makes the pipeline pass an empty task title to the Task Assembler — no
fallback is substituted on this path. -/
theorem C8_final_title_counterexample :
    "dodaj taska" ≠ "" ∧
    handle_task_creation_final_name
      ⟨true, .ok [], .ok "COMMAND", .ok "TITLE:\nDESCRIPTION: follow up", .ok "", .ok ""⟩
      "dodaj taska" = "" := by
  refine ⟨by decide, by decide⟩

/-- Claim C8 as amended (corrected): for a non-empty cleaned message, the
task title passed to the Task Assembler can only be empty in the command
path, when the extractor's model reply contains a `TITLE:`-labeled line whose
content strips to empty; on the direct-description path, and on every
no-credential or error fallback, the title is non-empty. -/
theorem C8_final_title_amended :
    ∀ (env : PipelineEnv) (c : String), c ≠ "" →
      handle_task_creation_final_name env c = "" →
      (is_task_creation_command env.hasKey env.intentReply c).1 = true ∧
      env.hasKey = true ∧
      ∃ r : String, env.extractReply = .ok r ∧
        (parse_title_description c (pySplitLines r)).1 = "" := by
  intro env c hc he
  by_cases hcmd : (is_task_creation_command env.hasKey env.intentReply c).1 = true
  · simp only [handle_task_creation_final_name] at he
    rw [if_pos hcmd] at he
    cases hkey : env.hasKey with
    | false =>
      exfalso
      rw [hkey] at he
      replace he : ("Task from conversation context" : String) = "" := he
      exact absurd he (by decide)
    | true =>
      cases hrep : env.extractReply with
      | error e =>
        exfalso
        rw [hkey, hrep] at he
        replace he : ("Task from conversation context" : String) = "" := he
        exact absurd he (by decide)
      | ok r =>
        rw [hkey, hrep] at he
        replace he : (parse_title_description c (pySplitLines r)).1 = "" := he
        rw [hkey] at hcmd
        exact ⟨hcmd, rfl, r, rfl, he⟩
  · exfalso
    simp only [handle_task_creation_final_name] at he
    rw [if_neg hcmd] at he
    exact generate_smart_title_ne_empty env.titleReply c _ hc he

/-- Closed instance of C8's amended statement at the counterexample input. -/
theorem C8_final_title_amended_witness :
    (is_task_creation_command true (.ok "COMMAND") "dodaj taska").1 = true ∧
    (true : Bool) = true ∧
    ∃ r : String,
      (Except.ok "TITLE:\nDESCRIPTION: follow up" : Except Unit String) = .ok r ∧
      (parse_title_description "dodaj taska" (pySplitLines r)).1 = "" :=
  C8_final_title_amended
    ⟨true, .ok [], .ok "COMMAND", .ok "TITLE:\nDESCRIPTION: follow up", .ok "", .ok ""⟩
    "dodaj taska" (by decide) (by decide)

